import Mathlib

/-!
Verification of the statechannels/website repository's runtime scripts and
build configuration, shallowly embedded in Lean 4.

The embedded pieces are:
* `src/app/js/animate-elements.js` — the graphic/content cycler
  (`handleContentChange`, `handleGraphicChange`, the 4-second delayed
  initial transition, listener registration) and the mobile-menu toggler
  (`toggleMenu`).
* The Brocfile (broccoli build pipeline): tree composition, the
  `EMBER_ENV` gated live-reload wrapping and test-bundle merge.
* The docs server hook: `fs.readFile` callback converting markdown to HTML.

DOM element class attributes are modelled as `List String` (an ordered,
duplicate-free token list in reachable states), with the `DOMTokenList`
operations `add`, `remove` and `replace` embedded directly.
-/

namespace Website

/-- `classList.add t`: appends `t` unless already present. -/
def clAdd (t : String) (l : List String) : List String :=
  if t ∈ l then l else l ++ [t]

/-- `classList.remove t`: removes the token `t`. -/
def clRemove (t : String) (l : List String) : List String :=
  l.filter (fun x => x ≠ t)

/-- `classList.replace o n`: if `o` is present, replaces it in place by `n`;
otherwise does nothing (the DOM call returns `false`). -/
def clReplace (o n : String) (l : List String) : List String :=
  if o ∈ l then l.map (fun x => if x = o then n else x) else l

theorem mem_clAdd_iff {s t : String} {l : List String} :
    s ∈ clAdd t l ↔ s ∈ l ∨ s = t := by
  unfold clAdd
  by_cases h : t ∈ l
  · simp only [if_pos h, List.mem_append]
    constructor
    · exact Or.inl
    · rintro (hs | rfl)
      · exact hs
      · exact h
  · simp [if_neg h]

theorem mem_clRemove_iff {s t : String} {l : List String} :
    s ∈ clRemove t l ↔ s ∈ l ∧ s ≠ t := by
  simp [clRemove, List.mem_filter]

theorem mem_clReplace_new {o n : String} {l : List String} (h : o ∈ l) :
    n ∈ clReplace o n l := by
  unfold clReplace
  rw [if_pos h]
  exact List.mem_map.mpr ⟨o, h, by simp⟩

theorem mem_clReplace_of_ne {s o n : String} {l : List String} (hsn : s ≠ n) :
    s ∈ clReplace o n l ↔ s ∈ l ∧ s ≠ o := by
  unfold clReplace
  by_cases h : o ∈ l
  · rw [if_pos h, List.mem_map]
    constructor
    · rintro ⟨x, hx, hfx⟩
      by_cases hxo : x = o
      · rw [if_pos hxo] at hfx
        exact absurd hfx.symm hsn
      · rw [if_neg hxo] at hfx
        exact ⟨hfx ▸ hx, hfx ▸ hxo⟩
    · rintro ⟨hs, hso⟩
      exact ⟨s, hs, by rw [if_neg hso]⟩
  · rw [if_neg h]
    constructor
    · intro hs
      refine ⟨hs, fun hso => h (hso ▸ hs)⟩
    · exact And.left

/-! ## Graphic/content cycler (`src/app/js/animate-elements.js`) -/

/-- Content element state field (`content1.state` etc.):
starts as `'initial'`, becomes `'visible'` / `'hidden'`. -/
inductive CState where
  | initial
  | visible
  | hidden
deriving DecidableEq

/-- Graphic element state field (`graphic1.state` etc.). -/
inductive GState where
  | active
  | inactive
deriving DecidableEq

/-- A content object: its element's class attribute and its `state` field. -/
structure Content where
  classes : List String
  state : CState
deriving DecidableEq

/-- A graphic object: its element's class attribute and its `state` field.
The `animation` field (a bodymovin handle) carries no state relevant here:
every `play`/`stop` call in the source is commented out. -/
structure Graphic where
  classes : List String
  state : GState
deriving DecidableEq

/-- First block of `handleContentChange` applied to its first argument `a`:
`initial` gets `content-show` added; `hidden` gets `content-hide` replaced
by `content-show`; in both cases the state becomes `visible`. -/
def applyShow (x : Content) : Content :=
  if x.state = CState.initial then
    { classes := clAdd "content-show" x.classes, state := CState.visible }
  else if x.state = CState.hidden then
    { classes := clReplace "content-hide" "content-show" x.classes,
      state := CState.visible }
  else x

/-- Second/third block of `handleContentChange` applied to `b` / `c`:
a `visible` element gets `content-show` replaced by `content-hide` and
its state set to `hidden`. -/
def applyHide (x : Content) : Content :=
  if x.state = CState.visible then
    { classes := clReplace "content-show" "content-hide" x.classes,
      state := CState.hidden }
  else x

/-- `handleContentChange(a, b, c)`: the three mutated objects, in order.
The source mutates three distinct global objects; the blocks for `a`,
`b` and `c` are independent, so the componentwise form is exact. -/
def handleContentChange (a b c : Content) : Content × Content × Content :=
  (applyShow a, applyHide b, applyHide c)

/-- The `a`-block of `handleGraphicChange`: an `inactive` graphic becomes
`active` and gains the `active` class. -/
def activate (x : Graphic) : Graphic :=
  if x.state = GState.inactive then
    { classes := clAdd "active" x.classes, state := GState.active }
  else x

/-- The `b`/`c`-block of `handleGraphicChange`: an `active` graphic becomes
`inactive` and loses the `active` class. -/
def deactivate (x : Graphic) : Graphic :=
  if x.state = GState.active then
    { classes := clRemove "active" x.classes, state := GState.inactive }
  else x

/-- The three per-argument blocks of `handleGraphicChange(a, b, c)`.
The initial `graphic1.el.classList.remove('graphic1Load')` line targets the
global `graphic1` whichever argument order is used; it is modelled in
`animStep`, before this function, matching the source's statement order. -/
def handleGraphicChange (a b c : Graphic) : Graphic × Graphic × Graphic :=
  (activate a, deactivate b, deactivate c)

/-- Whole-page state of `animateElements`: the three graphic and three
content globals, plus whether the 4000 ms `setTimeout` callback has run
(that callback both performs the initial content transition and registers
the three `mouseover` listeners). -/
structure AnimSys where
  g1 : Graphic
  g2 : Graphic
  g3 : Graphic
  c1 : Content
  c2 : Content
  c3 : Content
  fired : Bool
deriving DecidableEq

/-- Events observable by `animateElements`: the one-shot timer callback and
a `mouseover` on each graphic. -/
inductive AnimEv where
  | timer
  | hover1
  | hover2
  | hover3
deriving DecidableEq

/-- One event step. A hover before the timer has fired is a no-op: the
`mouseover` listeners are registered only inside the `setTimeout` callback.
The timer fires at most once (`setTimeout` without repetition). Each hover
handler calls `handleContentChange` then `handleGraphicChange` with the
argument orders used in the source, and `handleGraphicChange` first removes
`graphic1Load` from graphic 1's element. -/
def animStep (s : AnimSys) : AnimEv → AnimSys
  | AnimEv.timer =>
      if s.fired then s else
        let p := handleContentChange s.c1 s.c2 s.c3
        { s with c1 := p.1, c2 := p.2.1, c3 := p.2.2, fired := true }
  | AnimEv.hover1 =>
      if s.fired then
        let p := handleContentChange s.c1 s.c2 s.c3
        let g1L : Graphic :=
          { classes := clRemove "graphic1Load" s.g1.classes, state := s.g1.state }
        let q := handleGraphicChange g1L s.g2 s.g3
        { g1 := q.1, g2 := q.2.1, g3 := q.2.2,
          c1 := p.1, c2 := p.2.1, c3 := p.2.2, fired := true }
      else s
  | AnimEv.hover2 =>
      if s.fired then
        let p := handleContentChange s.c2 s.c1 s.c3
        let g1L : Graphic :=
          { classes := clRemove "graphic1Load" s.g1.classes, state := s.g1.state }
        let q := handleGraphicChange s.g2 g1L s.g3
        { g1 := q.2.1, g2 := q.1, g3 := q.2.2,
          c1 := p.2.1, c2 := p.1, c3 := p.2.2, fired := true }
      else s
  | AnimEv.hover3 =>
      if s.fired then
        let p := handleContentChange s.c3 s.c1 s.c2
        let g1L : Graphic :=
          { classes := clRemove "graphic1Load" s.g1.classes, state := s.g1.state }
        let q := handleGraphicChange s.g3 g1L s.g2
        { g1 := q.2.1, g2 := q.2.2, g3 := q.1,
          c1 := p.2.1, c2 := p.2.2, c3 := p.1, fired := true }
      else s

/-- Run a sequence of events from a state. -/
def animRun (s : AnimSys) (es : List AnimEv) : AnimSys :=
  es.foldl animStep s

/-- Module-load state of `animate-elements.js`: graphic 1's `state` field is
`'active'`, graphics 2 and 3 are `'inactive'`, all contents are `'initial'`,
and the timer has not fired. The class attributes `k1 k2 k3 m1 m2 m3` come
from the page markup and are left as parameters. -/
def initSys (k1 k2 k3 m1 m2 m3 : List String) : AnimSys :=
  { g1 := { classes := k1, state := GState.active }
    g2 := { classes := k2, state := GState.inactive }
    g3 := { classes := k3, state := GState.inactive }
    c1 := { classes := m1, state := CState.initial }
    c2 := { classes := m2, state := CState.initial }
    c3 := { classes := m3, state := CState.initial }
    fired := false }

/-- Modelled from the spec: the page markup is not part of the repository
source, so the concrete initial class attributes are taken from the spec's
description — content blocks start with no state-marker class
("not yet marked"), graphic 1 starts without the `active` class
("initialized with state 'active' and no class") but with the
`graphic1Load` entrance-animation class that `handleGraphicChange`
removes, and graphics 2 and 3 start with no marker class. -/
def init0 : AnimSys :=
  initSys ["graphic1Load"] [] [] [] [] []

/-- Reachable state: run `es` from the module-load state with the given
initial class attributes. -/
def reach (k1 k2 k3 m1 m2 m3 : List String) (es : List AnimEv) : AnimSys :=
  animRun (initSys k1 k2 k3 m1 m2 m3) es

/-! ### Class/state synchronisation invariant -/

/-- A content object's class attribute agrees with its `state` field:
`initial` carries neither marker, `visible` carries exactly
`content-show`, `hidden` carries exactly `content-hide`. -/
def contentOK (x : Content) : Prop :=
  (x.state = CState.initial →
    "content-show" ∉ x.classes ∧ "content-hide" ∉ x.classes) ∧
  (x.state = CState.visible →
    "content-show" ∈ x.classes ∧ "content-hide" ∉ x.classes) ∧
  (x.state = CState.hidden →
    "content-hide" ∈ x.classes ∧ "content-show" ∉ x.classes)

/-- Weak agreement for a graphic: carrying the `active` class implies the
`active` state. Graphic 1 satisfies only this at page load (state
`'active'`, class absent). -/
def graphicLe (x : Graphic) : Prop :=
  "active" ∈ x.classes → x.state = GState.active

/-- Strong agreement for a graphic: the `active` class is present exactly
when the `state` field is `'active'`. -/
def graphicEq (x : Graphic) : Prop :=
  "active" ∈ x.classes ↔ x.state = GState.active

/-- Exactly one of the three graphics has state field `'active'`. -/
def oneActiveState (s : AnimSys) : Prop :=
  (s.g1.state = GState.active ∧ s.g2.state = GState.inactive ∧
    s.g3.state = GState.inactive) ∨
  (s.g1.state = GState.inactive ∧ s.g2.state = GState.active ∧
    s.g3.state = GState.inactive) ∨
  (s.g1.state = GState.inactive ∧ s.g2.state = GState.inactive ∧
    s.g3.state = GState.active)

/-- Exactly one of the three contents has state field `'visible'`. -/
def oneVisibleState (s : AnimSys) : Prop :=
  (s.c1.state = CState.visible ∧ s.c2.state ≠ CState.visible ∧
    s.c3.state ≠ CState.visible) ∨
  (s.c1.state ≠ CState.visible ∧ s.c2.state = CState.visible ∧
    s.c3.state ≠ CState.visible) ∨
  (s.c1.state ≠ CState.visible ∧ s.c2.state ≠ CState.visible ∧
    s.c3.state = CState.visible)

/-- Reachability invariant of the cycler. -/
def Inv (s : AnimSys) : Prop :=
  contentOK s.c1 ∧ contentOK s.c2 ∧ contentOK s.c3 ∧
  graphicLe s.g1 ∧ graphicEq s.g2 ∧ graphicEq s.g3 ∧
  oneActiveState s ∧
  (s.fired = true → oneVisibleState s) ∧
  (s.fired = false → s.c1.state = CState.initial ∧
    s.c2.state = CState.initial ∧ s.c3.state = CState.initial)

theorem show_ne_hide : ("content-show" : String) ≠ "content-hide" := by decide

theorem hide_ne_show : ("content-hide" : String) ≠ "content-show" := by decide

theorem active_ne_load : ("active" : String) ≠ "graphic1Load" := by decide

theorem load_ne_active : ("graphic1Load" : String) ≠ "active" := by decide

theorem applyShow_spec (x : Content) (h : contentOK x) :
    contentOK (applyShow x) ∧ (applyShow x).state = CState.visible ∧
      "content-show" ∈ (applyShow x).classes := by
  obtain ⟨hi, hv, hh⟩ := h
  unfold applyShow
  rcases hx : x.state
  · obtain ⟨hs, hd⟩ := hi hx
    refine ⟨⟨fun hcon => (nomatch hcon), fun _ => ⟨?_, ?_⟩,
      fun hcon => (nomatch hcon)⟩, rfl, ?_⟩
    · exact mem_clAdd_iff.mpr (Or.inr rfl)
    · intro hmem
      rcases mem_clAdd_iff.mp hmem with hin | heq
      · exact hd hin
      · exact hide_ne_show heq
    · exact mem_clAdd_iff.mpr (Or.inr rfl)
  · obtain ⟨hs, hd⟩ := hv hx
    exact ⟨⟨hi, hv, hh⟩, hx, hs⟩
  · obtain ⟨hd, hs⟩ := hh hx
    refine ⟨⟨fun hcon => (nomatch hcon), fun _ => ⟨?_, ?_⟩,
      fun hcon => (nomatch hcon)⟩, rfl, ?_⟩
    · exact mem_clReplace_new hd
    · intro hmem
      exact ((mem_clReplace_of_ne hide_ne_show).mp hmem).2 rfl
    · exact mem_clReplace_new hd

theorem applyHide_spec (x : Content) (h : contentOK x) :
    contentOK (applyHide x) ∧ (applyHide x).state ≠ CState.visible ∧
      "content-show" ∉ (applyHide x).classes := by
  obtain ⟨hi, hv, hh⟩ := h
  unfold applyHide
  rcases hx : x.state
  · exact ⟨⟨hi, hv, hh⟩, fun hcon => (nomatch hx.symm.trans hcon),
      fun hmem => (hi hx).1 hmem⟩
  · obtain ⟨hs, hd⟩ := hv hx
    refine ⟨⟨fun hcon => (nomatch hcon), fun hcon => (nomatch hcon),
      fun _ => ⟨?_, ?_⟩⟩, fun hcon => (nomatch hcon), ?_⟩
    · exact mem_clReplace_new hs
    · intro hmem
      exact ((mem_clReplace_of_ne show_ne_hide).mp hmem).2 rfl
    · intro hmem
      exact ((mem_clReplace_of_ne show_ne_hide).mp hmem).2 rfl
  · exact ⟨⟨hi, hv, hh⟩, fun hcon => (nomatch hx.symm.trans hcon),
      fun hmem => (hh hx).2 hmem⟩

theorem activate_specEq (x : Graphic) (h : graphicEq x) :
    graphicEq (activate x) ∧ (activate x).state = GState.active ∧
      "active" ∈ (activate x).classes := by
  unfold activate
  rcases hx : x.state
  · exact ⟨h, hx, h.mpr hx⟩
  · have hmem : "active" ∈ clAdd "active" x.classes :=
      mem_clAdd_iff.mpr (Or.inr rfl)
    exact ⟨⟨fun _ => rfl, fun _ => hmem⟩, rfl, hmem⟩

theorem activate_specLe (x : Graphic) (h : graphicLe x) :
    graphicLe (activate x) ∧ (activate x).state = GState.active ∧
      ("active" ∈ (activate x).classes ↔
        (x.state = GState.inactive ∨ "active" ∈ x.classes)) := by
  unfold activate
  rcases hx : x.state
  · refine ⟨h, hx, ?_⟩
    constructor
    · exact fun hm => Or.inr hm
    · rintro (hc | hm)
      · exact (nomatch hc)
      · exact hm
  · have hmem : "active" ∈ clAdd "active" x.classes :=
      mem_clAdd_iff.mpr (Or.inr rfl)
    exact ⟨fun _ => rfl, rfl, ⟨fun _ => Or.inl rfl, fun _ => hmem⟩⟩

theorem deactivate_spec (x : Graphic) (h : graphicLe x) :
    graphicEq (deactivate x) ∧ (deactivate x).state = GState.inactive ∧
      "active" ∉ (deactivate x).classes := by
  unfold deactivate
  rcases hx : x.state
  · have hnot : "active" ∉ clRemove "active" x.classes := by
      intro hm
      exact (mem_clRemove_iff.mp hm).2 rfl
    exact ⟨⟨fun hm => absurd hm hnot, fun he => (nomatch he)⟩, rfl, hnot⟩
  · have hnot : "active" ∉ x.classes := fun hm => (nomatch (h hm).symm.trans hx)
    exact ⟨⟨fun hm => absurd hm hnot, fun he => (nomatch hx.symm.trans he)⟩,
      hx, hnot⟩

/-- Removing `graphic1Load` preserves the agreement facts about `active`. -/
theorem loadRemove_graphicLe (x : Graphic) (h : graphicLe x) :
    graphicLe { classes := clRemove "graphic1Load" x.classes, state := x.state } ∧
      ("active" ∈ clRemove "graphic1Load" x.classes ↔ "active" ∈ x.classes) := by
  have hiff : "active" ∈ clRemove "graphic1Load" x.classes ↔
      "active" ∈ x.classes := by
    rw [mem_clRemove_iff]
    exact ⟨And.left, fun hm => ⟨hm, active_ne_load⟩⟩
  exact ⟨fun hm => h (hiff.mp hm), hiff⟩

theorem graphicEq_le (x : Graphic) (h : graphicEq x) : graphicLe x :=
  h.mp

theorem notActive_of_inactive (x : Graphic) (hle : graphicLe x)
    (hx : x.state = GState.inactive) : "active" ∉ x.classes :=
  fun hm => (nomatch (hle hm).symm.trans hx)

theorem notShow_of_not_visible (x : Content) (h : contentOK x)
    (hx : x.state ≠ CState.visible) : "content-show" ∉ x.classes := by
  rcases hs : x.state
  · exact (h.1 hs).1
  · exact absurd hs hx
  · exact (h.2.2 hs).2

/-- The cycler invariant is preserved by every event step. -/
theorem inv_step (s : AnimSys) (e : AnimEv) (h : Inv s) :
    Inv (animStep s e) := by
  obtain ⟨hc1, hc2, hc3, hg1, hg2, hg3, hone, hvis, hinit⟩ := h
  cases e
  case timer =>
    rcases hf : s.fired
    · obtain ⟨hi1, hi2, hi3⟩ := hinit hf
      simp only [animStep, hf, Bool.false_eq_true, if_false]
      obtain ⟨ha, hav, _⟩ := applyShow_spec s.c1 hc1
      obtain ⟨hb, hbv, _⟩ := applyHide_spec s.c2 hc2
      obtain ⟨hcc, hcv, _⟩ := applyHide_spec s.c3 hc3
      exact ⟨ha, hb, hcc, hg1, hg2, hg3, hone,
        fun _ => Or.inl ⟨hav, hbv, hcv⟩, fun hcon => (nomatch hcon)⟩
    · simp only [animStep, hf, if_true]
      exact ⟨hc1, hc2, hc3, hg1, hg2, hg3, hone, hvis, hinit⟩
  case hover1 =>
    rcases hf : s.fired
    · simp only [animStep, hf, Bool.false_eq_true, if_false]
      exact ⟨hc1, hc2, hc3, hg1, hg2, hg3, hone, hvis, hinit⟩
    · simp only [animStep, hf, if_true]
      obtain ⟨ha, hav, _⟩ := applyShow_spec s.c1 hc1
      obtain ⟨hb, hbv, _⟩ := applyHide_spec s.c2 hc2
      obtain ⟨hcc, hcv, _⟩ := applyHide_spec s.c3 hc3
      obtain ⟨hL, _⟩ := loadRemove_graphicLe s.g1 hg1
      obtain ⟨hga, hgav, _⟩ := activate_specLe _ hL
      obtain ⟨hgb, hgbv, _⟩ := deactivate_spec s.g2 (graphicEq_le s.g2 hg2)
      obtain ⟨hgc, hgcv, _⟩ := deactivate_spec s.g3 (graphicEq_le s.g3 hg3)
      exact ⟨ha, hb, hcc, hga, hgb, hgc, Or.inl ⟨hgav, hgbv, hgcv⟩,
        fun _ => Or.inl ⟨hav, hbv, hcv⟩, fun hcon => (nomatch hcon)⟩
  case hover2 =>
    rcases hf : s.fired
    · simp only [animStep, hf, Bool.false_eq_true, if_false]
      exact ⟨hc1, hc2, hc3, hg1, hg2, hg3, hone, hvis, hinit⟩
    · simp only [animStep, hf, if_true]
      obtain ⟨ha, hav, _⟩ := applyShow_spec s.c2 hc2
      obtain ⟨hb, hbv, _⟩ := applyHide_spec s.c1 hc1
      obtain ⟨hcc, hcv, _⟩ := applyHide_spec s.c3 hc3
      obtain ⟨hL, _⟩ := loadRemove_graphicLe s.g1 hg1
      obtain ⟨hga, hgav, _⟩ := activate_specEq s.g2 hg2
      obtain ⟨hgb, hgbv, _⟩ := deactivate_spec _ hL
      obtain ⟨hgc, hgcv, _⟩ := deactivate_spec s.g3 (graphicEq_le s.g3 hg3)
      exact ⟨hb, ha, hcc, graphicEq_le _ hgb, hga, hgc,
        Or.inr (Or.inl ⟨hgbv, hgav, hgcv⟩),
        fun _ => Or.inr (Or.inl ⟨hbv, hav, hcv⟩), fun hcon => (nomatch hcon)⟩
  case hover3 =>
    rcases hf : s.fired
    · simp only [animStep, hf, Bool.false_eq_true, if_false]
      exact ⟨hc1, hc2, hc3, hg1, hg2, hg3, hone, hvis, hinit⟩
    · simp only [animStep, hf, if_true]
      obtain ⟨ha, hav, _⟩ := applyShow_spec s.c3 hc3
      obtain ⟨hb, hbv, _⟩ := applyHide_spec s.c1 hc1
      obtain ⟨hcc, hcv, _⟩ := applyHide_spec s.c2 hc2
      obtain ⟨hL, _⟩ := loadRemove_graphicLe s.g1 hg1
      obtain ⟨hga, hgav, _⟩ := activate_specEq s.g3 hg3
      obtain ⟨hgb, hgbv, _⟩ := deactivate_spec _ hL
      obtain ⟨hgc, hgcv, _⟩ := deactivate_spec s.g2 (graphicEq_le s.g2 hg2)
      exact ⟨hb, hcc, ha, graphicEq_le _ hgb, hgc, hga,
        Or.inr (Or.inr ⟨hgbv, hgcv, hgav⟩),
        fun _ => Or.inr (Or.inr ⟨hbv, hcv, hav⟩), fun hcon => (nomatch hcon)⟩

/-- The cycler invariant is preserved by every event sequence. -/
theorem inv_run (s : AnimSys) (h : Inv s) (es : List AnimEv) :
    Inv (animRun s es) := by
  induction es generalizing s with
  | nil => exact h
  | cons e es ih => exact ih (animStep s e) (inv_step s e h)

/-- The module-load state satisfies the invariant whenever the markup's
initial class attributes carry no state-marker token. -/
theorem inv_init (k1 k2 k3 m1 m2 m3 : List String)
    (ha2 : "active" ∉ k2) (ha3 : "active" ∉ k3)
    (hs1 : "content-show" ∉ m1) (hh1 : "content-hide" ∉ m1)
    (hs2 : "content-show" ∉ m2) (hh2 : "content-hide" ∉ m2)
    (hs3 : "content-show" ∉ m3) (hh3 : "content-hide" ∉ m3) :
    Inv (initSys k1 k2 k3 m1 m2 m3) :=
  ⟨⟨fun _ => ⟨hs1, hh1⟩, fun hcon => (nomatch hcon), fun hcon => (nomatch hcon)⟩,
   ⟨fun _ => ⟨hs2, hh2⟩, fun hcon => (nomatch hcon), fun hcon => (nomatch hcon)⟩,
   ⟨fun _ => ⟨hs3, hh3⟩, fun hcon => (nomatch hcon), fun hcon => (nomatch hcon)⟩,
   fun _ => rfl,
   ⟨fun hm => absurd hm ha2, fun he => (nomatch he)⟩,
   ⟨fun hm => absurd hm ha3, fun he => (nomatch he)⟩,
   Or.inl ⟨rfl, rfl, rfl⟩,
   fun hcon => (nomatch hcon),
   fun _ => ⟨rfl, rfl, rfl⟩⟩

/-- Every reachable state of the cycler satisfies the invariant. -/
theorem inv_reach (k1 k2 k3 m1 m2 m3 : List String)
    (ha2 : "active" ∉ k2) (ha3 : "active" ∉ k3)
    (hs1 : "content-show" ∉ m1) (hh1 : "content-hide" ∉ m1)
    (hs2 : "content-show" ∉ m2) (hh2 : "content-hide" ∉ m2)
    (hs3 : "content-show" ∉ m3) (hh3 : "content-hide" ∉ m3)
    (es : List AnimEv) :
    Inv (reach k1 k2 k3 m1 m2 m3 es) :=
  inv_run _ (inv_init k1 k2 k3 m1 m2 m3 ha2 ha3 hs1 hh1 hs2 hh2 hs3 hh3) es

/-! ### Claim-level properties of the cycler -/

/-- At most one of the three graphic elements carries the `active` class. -/
def atMostOneActiveClass (s : AnimSys) : Prop :=
  ¬("active" ∈ s.g1.classes ∧ "active" ∈ s.g2.classes) ∧
  ¬("active" ∈ s.g1.classes ∧ "active" ∈ s.g3.classes) ∧
  ¬("active" ∈ s.g2.classes ∧ "active" ∈ s.g3.classes)

/-- At most one of the three content elements carries `content-show`. -/
def atMostOneShowClass (s : AnimSys) : Prop :=
  ¬("content-show" ∈ s.c1.classes ∧ "content-show" ∈ s.c2.classes) ∧
  ¬("content-show" ∈ s.c1.classes ∧ "content-show" ∈ s.c3.classes) ∧
  ¬("content-show" ∈ s.c2.classes ∧ "content-show" ∈ s.c3.classes)

/-- Exactly one of the three content elements carries `content-show`. -/
def exactlyOneShowClass (s : AnimSys) : Prop :=
  ("content-show" ∈ s.c1.classes ∧ "content-show" ∉ s.c2.classes ∧
    "content-show" ∉ s.c3.classes) ∨
  ("content-show" ∉ s.c1.classes ∧ "content-show" ∈ s.c2.classes ∧
    "content-show" ∉ s.c3.classes) ∨
  ("content-show" ∉ s.c1.classes ∧ "content-show" ∉ s.c2.classes ∧
    "content-show" ∈ s.c3.classes)

/-- A content element not carrying `content-show` carries `content-hide`,
except when it is still in its never-shown `initial` state, in which case
it carries neither marker. -/
def hiddenOrUntouched (x : Content) : Prop :=
  "content-show" ∉ x.classes →
    ("content-hide" ∈ x.classes ∨
      ("content-hide" ∉ x.classes ∧ x.state = CState.initial))

theorem content_discipline (x : Content) (h : contentOK x) :
    hiddenOrUntouched x := by
  intro hns
  rcases hx : x.state
  · exact Or.inr ⟨(h.1 hx).2, rfl⟩
  · exact absurd (h.2.1 hx).1 hns
  · exact Or.inl (h.2.2 hx).1

theorem atMostOne_of_inv (s : AnimSys) (h : Inv s) :
    atMostOneActiveClass s ∧ atMostOneShowClass s := by
  obtain ⟨hc1, hc2, hc3, hg1, hg2, hg3, hone, hvis, hinit⟩ := h
  constructor
  · rcases hone with ⟨h1, h2, h3⟩ | ⟨h1, h2, h3⟩ | ⟨h1, h2, h3⟩
    · exact ⟨fun ⟨_, hb⟩ => notActive_of_inactive s.g2 (graphicEq_le _ hg2) h2 hb,
        fun ⟨_, hb⟩ => notActive_of_inactive s.g3 (graphicEq_le _ hg3) h3 hb,
        fun ⟨ha, _⟩ => notActive_of_inactive s.g2 (graphicEq_le _ hg2) h2 ha⟩
    · exact ⟨fun ⟨ha, _⟩ => notActive_of_inactive s.g1 hg1 h1 ha,
        fun ⟨ha, _⟩ => notActive_of_inactive s.g1 hg1 h1 ha,
        fun ⟨_, hb⟩ => notActive_of_inactive s.g3 (graphicEq_le _ hg3) h3 hb⟩
    · exact ⟨fun ⟨ha, _⟩ => notActive_of_inactive s.g1 hg1 h1 ha,
        fun ⟨ha, _⟩ => notActive_of_inactive s.g1 hg1 h1 ha,
        fun ⟨ha, _⟩ => notActive_of_inactive s.g2 (graphicEq_le _ hg2) h2 ha⟩
  · rcases hf : s.fired
    · obtain ⟨h1, h2, h3⟩ := hinit hf
      refine ⟨fun ⟨ha, _⟩ => (hc1.1 h1).1 ha,
        fun ⟨ha, _⟩ => (hc1.1 h1).1 ha,
        fun ⟨ha, _⟩ => (hc2.1 h2).1 ha⟩
    · rcases hvis hf with ⟨h1, h2, h3⟩ | ⟨h1, h2, h3⟩ | ⟨h1, h2, h3⟩
      · exact ⟨fun ⟨_, hb⟩ => notShow_of_not_visible s.c2 hc2 h2 hb,
          fun ⟨_, hb⟩ => notShow_of_not_visible s.c3 hc3 h3 hb,
          fun ⟨ha, _⟩ => notShow_of_not_visible s.c2 hc2 h2 ha⟩
      · exact ⟨fun ⟨ha, _⟩ => notShow_of_not_visible s.c1 hc1 h1 ha,
          fun ⟨ha, _⟩ => notShow_of_not_visible s.c1 hc1 h1 ha,
          fun ⟨_, hb⟩ => notShow_of_not_visible s.c3 hc3 h3 hb⟩
      · exact ⟨fun ⟨ha, _⟩ => notShow_of_not_visible s.c1 hc1 h1 ha,
          fun ⟨ha, _⟩ => notShow_of_not_visible s.c1 hc1 h1 ha,
          fun ⟨ha, _⟩ => notShow_of_not_visible s.c2 hc2 h2 ha⟩

/-- C4: at every reachable state of the cycler — any interleaving of the
delayed initial transition and the three mouseover handlers, from a page
whose markup carries no state-marker class — at most one graphic element
carries the `active` class and at most one content element carries the
visible-state class `content-show`. -/
theorem cycler_at_most_one_active_one_visible
    (k1 k2 k3 m1 m2 m3 : List String)
    (ha2 : "active" ∉ k2) (ha3 : "active" ∉ k3)
    (hs1 : "content-show" ∉ m1) (hh1 : "content-hide" ∉ m1)
    (hs2 : "content-show" ∉ m2) (hh2 : "content-hide" ∉ m2)
    (hs3 : "content-show" ∉ m3) (hh3 : "content-hide" ∉ m3)
    (es : List AnimEv) :
    atMostOneActiveClass (reach k1 k2 k3 m1 m2 m3 es) ∧
      atMostOneShowClass (reach k1 k2 k3 m1 m2 m3 es) :=
  atMostOne_of_inv _
    (inv_reach k1 k2 k3 m1 m2 m3 ha2 ha3 hs1 hh1 hs2 hh2 hs3 hh3 es)

/-- Witness for C4 at a concrete input: the page-load class attributes and
the event sequence timer-then-hover-graphic-2. -/
theorem cycler_at_most_one_active_one_visible_witness :
    ("active" ∉ ([] : List String)) ∧
    ("content-show" ∉ ([] : List String)) ∧
    (atMostOneActiveClass
        (reach ["graphic1Load"] [] [] [] [] [] [AnimEv.timer, AnimEv.hover2]) ∧
      atMostOneShowClass
        (reach ["graphic1Load"] [] [] [] [] [] [AnimEv.timer, AnimEv.hover2])) :=
  ⟨by decide, by decide,
    cycler_at_most_one_active_one_visible ["graphic1Load"] [] [] [] [] []
      (by decide) (by decide) (by decide) (by decide) (by decide) (by decide)
      (by decide) (by decide) [AnimEv.timer, AnimEv.hover2]⟩

/-- C1 counterexample: immediately after the delayed initial transition has
fired (event sequence = just the timer, no mouseovers), content 1 carries
`content-show` but content 2 — one of "the other two" — carries neither
`content-hide` nor `content-show`: it is still in its untouched `initial`
state. So it is false that the other two carry the hidden-state class. -/
theorem cycler_two_hidden_cex :
    (animRun init0 [AnimEv.timer]).fired = true ∧
    "content-show" ∈ (animRun init0 [AnimEv.timer]).c1.classes ∧
    "content-show" ∉ (animRun init0 [AnimEv.timer]).c2.classes ∧
    ¬ "content-hide" ∈ (animRun init0 [AnimEv.timer]).c2.classes := by
  decide

/-- C1 amended: at every point after the initial delayed transition has
fired, for every sequence of mouseover events, exactly one of the three
content elements carries `content-show`; each of the other two carries
`content-hide` if it has ever been visible, and otherwise (still in its
`initial` state) carries neither marker class. -/
theorem cycler_one_visible_rest_hidden
    (k1 k2 k3 m1 m2 m3 : List String)
    (ha2 : "active" ∉ k2) (ha3 : "active" ∉ k3)
    (hs1 : "content-show" ∉ m1) (hh1 : "content-hide" ∉ m1)
    (hs2 : "content-show" ∉ m2) (hh2 : "content-hide" ∉ m2)
    (hs3 : "content-show" ∉ m3) (hh3 : "content-hide" ∉ m3)
    (es : List AnimEv)
    (hf : (reach k1 k2 k3 m1 m2 m3 es).fired = true) :
    exactlyOneShowClass (reach k1 k2 k3 m1 m2 m3 es) ∧
    hiddenOrUntouched (reach k1 k2 k3 m1 m2 m3 es).c1 ∧
    hiddenOrUntouched (reach k1 k2 k3 m1 m2 m3 es).c2 ∧
    hiddenOrUntouched (reach k1 k2 k3 m1 m2 m3 es).c3 := by
  obtain ⟨hc1, hc2, hc3, _, _, _, _, hvis, _⟩ :=
    inv_reach k1 k2 k3 m1 m2 m3 ha2 ha3 hs1 hh1 hs2 hh2 hs3 hh3 es
  refine ⟨?_, content_discipline _ hc1, content_discipline _ hc2,
    content_discipline _ hc3⟩
  rcases hvis hf with ⟨h1, h2, h3⟩ | ⟨h1, h2, h3⟩ | ⟨h1, h2, h3⟩
  · exact Or.inl ⟨(hc1.2.1 h1).1, notShow_of_not_visible _ hc2 h2,
      notShow_of_not_visible _ hc3 h3⟩
  · exact Or.inr (Or.inl ⟨notShow_of_not_visible _ hc1 h1, (hc2.2.1 h2).1,
      notShow_of_not_visible _ hc3 h3⟩)
  · exact Or.inr (Or.inr ⟨notShow_of_not_visible _ hc1 h1,
      notShow_of_not_visible _ hc2 h2, (hc3.2.1 h3).1⟩)

/-- Witness for the amended C1 at a concrete input: timer, then hovers on
graphics 3 and 2. -/
theorem cycler_one_visible_rest_hidden_witness :
    ("content-hide" ∉ ([] : List String)) ∧
    (reach ["graphic1Load"] [] [] [] [] []
        [AnimEv.timer, AnimEv.hover3, AnimEv.hover2]).fired = true ∧
    (exactlyOneShowClass (reach ["graphic1Load"] [] [] [] [] []
        [AnimEv.timer, AnimEv.hover3, AnimEv.hover2]) ∧
      hiddenOrUntouched (reach ["graphic1Load"] [] [] [] [] []
        [AnimEv.timer, AnimEv.hover3, AnimEv.hover2]).c1 ∧
      hiddenOrUntouched (reach ["graphic1Load"] [] [] [] [] []
        [AnimEv.timer, AnimEv.hover3, AnimEv.hover2]).c2 ∧
      hiddenOrUntouched (reach ["graphic1Load"] [] [] [] [] []
        [AnimEv.timer, AnimEv.hover3, AnimEv.hover2]).c3) :=
  ⟨by decide, by decide,
    cycler_one_visible_rest_hidden ["graphic1Load"] [] [] [] [] []
      (by decide) (by decide) (by decide) (by decide) (by decide) (by decide)
      (by decide) (by decide) [AnimEv.timer, AnimEv.hover3, AnimEv.hover2]
      (by decide)⟩

/-- C2 counterexample: fire the timer, then the mouseover handler of
graphic 1 as the very first hover. Graphic 1's `state` field is `'active'`
from page load, so `handleGraphicChange`'s `a.state === 'inactive'` guard
does not fire and no `active` class is added: afterwards NO graphic element
carries `active`, so graphic 1 is not "the sole element ... whose class
list contains 'active'". -/
theorem hover_sole_active_cex :
    (animRun init0 [AnimEv.timer]).fired = true ∧
    "active" ∉ (animRun init0 [AnimEv.timer, AnimEv.hover1]).g1.classes ∧
    "active" ∉ (animRun init0 [AnimEv.timer, AnimEv.hover1]).g2.classes ∧
    "active" ∉ (animRun init0 [AnimEv.timer, AnimEv.hover1]).g3.classes := by
  decide

/-- C2 amended: after any prior event sequence, firing the mouseover
handler of graphic `i` leaves graphic `i` as the only graphic whose `state`
field is `'active'` and strips the `active` class from the other two
graphic elements; for `i ∈ {2,3}` graphic `i`'s element then carries the
`active` class (hence is its sole carrier), while graphic 1's element after
a hover on graphic 1 carries it exactly when graphic 1 had been deactivated
earlier (its state was `'inactive'`) or its element already carried the
class — in the remaining case (first hover ever lands on graphic 1) no
element carries `active`. -/
theorem hover_sole_active
    (k1 k2 k3 m1 m2 m3 : List String)
    (ha2 : "active" ∉ k2) (ha3 : "active" ∉ k3)
    (hs1 : "content-show" ∉ m1) (hh1 : "content-hide" ∉ m1)
    (hs2 : "content-show" ∉ m2) (hh2 : "content-hide" ∉ m2)
    (hs3 : "content-show" ∉ m3) (hh3 : "content-hide" ∉ m3)
    (es : List AnimEv)
    (hf : (reach k1 k2 k3 m1 m2 m3 es).fired = true) :
    ((animStep (reach k1 k2 k3 m1 m2 m3 es) AnimEv.hover1).g1.state
        = GState.active ∧
      (animStep (reach k1 k2 k3 m1 m2 m3 es) AnimEv.hover1).g2.state
        = GState.inactive ∧
      (animStep (reach k1 k2 k3 m1 m2 m3 es) AnimEv.hover1).g3.state
        = GState.inactive ∧
      "active" ∉ (animStep (reach k1 k2 k3 m1 m2 m3 es) AnimEv.hover1).g2.classes ∧
      "active" ∉ (animStep (reach k1 k2 k3 m1 m2 m3 es) AnimEv.hover1).g3.classes ∧
      ("active" ∈ (animStep (reach k1 k2 k3 m1 m2 m3 es) AnimEv.hover1).g1.classes ↔
        ((reach k1 k2 k3 m1 m2 m3 es).g1.state = GState.inactive ∨
          "active" ∈ (reach k1 k2 k3 m1 m2 m3 es).g1.classes))) ∧
    ("active" ∈ (animStep (reach k1 k2 k3 m1 m2 m3 es) AnimEv.hover2).g2.classes ∧
      "active" ∉ (animStep (reach k1 k2 k3 m1 m2 m3 es) AnimEv.hover2).g1.classes ∧
      "active" ∉ (animStep (reach k1 k2 k3 m1 m2 m3 es) AnimEv.hover2).g3.classes) ∧
    ("active" ∈ (animStep (reach k1 k2 k3 m1 m2 m3 es) AnimEv.hover3).g3.classes ∧
      "active" ∉ (animStep (reach k1 k2 k3 m1 m2 m3 es) AnimEv.hover3).g1.classes ∧
      "active" ∉ (animStep (reach k1 k2 k3 m1 m2 m3 es) AnimEv.hover3).g2.classes) := by
  obtain ⟨hc1, hc2, hc3, hg1, hg2, hg3, hone, hvis, hinit⟩ :=
    inv_reach k1 k2 k3 m1 m2 m3 ha2 ha3 hs1 hh1 hs2 hh2 hs3 hh3 es
  obtain ⟨hL, hLiff⟩ := loadRemove_graphicLe _ hg1
  refine ⟨?_, ?_, ?_⟩
  · simp only [animStep, hf, if_true]
    obtain ⟨_, hgav, hgaiff⟩ := activate_specLe _ hL
    obtain ⟨_, hgbv, hgbn⟩ :=
      deactivate_spec _ (graphicEq_le _ hg2)
    obtain ⟨_, hgcv, hgcn⟩ :=
      deactivate_spec _ (graphicEq_le _ hg3)
    exact ⟨hgav, hgbv, hgcv, hgbn, hgcn, hgaiff.trans (or_congr_right hLiff)⟩
  · simp only [animStep, hf, if_true]
    obtain ⟨_, _, hgam⟩ := activate_specEq _ hg2
    obtain ⟨_, _, hgbn⟩ := deactivate_spec _ hL
    obtain ⟨_, _, hgcn⟩ := deactivate_spec _ (graphicEq_le _ hg3)
    exact ⟨hgam, hgbn, hgcn⟩
  · simp only [animStep, hf, if_true]
    obtain ⟨_, _, hgam⟩ := activate_specEq _ hg3
    obtain ⟨_, _, hgbn⟩ := deactivate_spec _ hL
    obtain ⟨_, _, hgcn⟩ := deactivate_spec _ (graphicEq_le _ hg2)
    exact ⟨hgam, hgbn, hgcn⟩

/-- Witness for the amended C2 at a concrete input: the prior sequence is
just the timer firing. -/
theorem hover_sole_active_witness :
    (reach ["graphic1Load"] [] [] [] [] [] [AnimEv.timer]).fired = true ∧
    "active" ∈ (animStep (reach ["graphic1Load"] [] [] [] [] [] [AnimEv.timer])
        AnimEv.hover2).g2.classes ∧
    "active" ∉ (animStep (reach ["graphic1Load"] [] [] [] [] [] [AnimEv.timer])
        AnimEv.hover2).g1.classes ∧
    "active" ∉ (animStep (reach ["graphic1Load"] [] [] [] [] [] [AnimEv.timer])
        AnimEv.hover2).g3.classes :=
  ⟨by decide,
    (hover_sole_active ["graphic1Load"] [] [] [] [] []
      (by decide) (by decide) (by decide) (by decide) (by decide) (by decide)
      (by decide) (by decide) [AnimEv.timer] (by decide)).2.1⟩

/-- C3 counterexample: a hover on graphic 2 before the 4000 ms timer has
fired changes nothing at all — the whole page state is unchanged and
content 2 does not become visible — because no mouseover listener exists
yet. So the user's hover selection does NOT "take effect and is then
overridden"; afterwards the timer simply performs the first transition,
making content 1 visible. -/
theorem early_hover_cex :
    animRun init0 [AnimEv.hover2] = init0 ∧
    (animRun init0 [AnimEv.hover2]).c2.state ≠ CState.visible ∧
    "content-show" ∉ (animRun init0 [AnimEv.hover2]).c2.classes ∧
    (animRun init0 [AnimEv.hover2, AnimEv.timer]).c1.state = CState.visible := by
  decide

/-- C3 amended: a hover on any graphic before the delayed `setTimeout`
callback has run has no effect whatsoever (no listener is registered yet),
and the delayed handler then fires and marks content 1 visible — the
initial transition, not an override of a user selection. -/
theorem early_hover_no_effect (s : AnimSys) (hf : s.fired = false)
    (e : AnimEv) (he : e ≠ AnimEv.timer) :
    animStep s e = s ∧
    (s.c1.state = CState.initial →
      (animStep (animStep s e) AnimEv.timer).c1.state = CState.visible ∧
        "content-show" ∈ (animStep (animStep s e) AnimEv.timer).c1.classes) := by
  have hstep : animStep s e = s := by
    cases e
    · exact absurd rfl he
    · simp only [animStep, hf, Bool.false_eq_true, if_false]
    · simp only [animStep, hf, Bool.false_eq_true, if_false]
    · simp only [animStep, hf, Bool.false_eq_true, if_false]
  refine ⟨hstep, fun hc => ?_⟩
  rw [hstep]
  simp only [animStep, hf, Bool.false_eq_true, if_false]
  constructor
  · show (applyShow s.c1).state = CState.visible
    unfold applyShow
    rw [if_pos hc]
  · show "content-show" ∈ (applyShow s.c1).classes
    unfold applyShow
    rw [if_pos hc]
    exact mem_clAdd_iff.mpr (Or.inr rfl)

/-- Witness for the amended C3 at a concrete input: the page-load state and
a premature hover on graphic 2. -/
theorem early_hover_no_effect_witness :
    init0.fired = false ∧ AnimEv.hover2 ≠ AnimEv.timer ∧
    (animStep init0 AnimEv.hover2 = init0 ∧
      (init0.c1.state = CState.initial →
        (animStep (animStep init0 AnimEv.hover2) AnimEv.timer).c1.state
            = CState.visible ∧
          "content-show" ∈
            (animStep (animStep init0 AnimEv.hover2) AnimEv.timer).c1.classes)) :=
  ⟨by decide, by decide,
    early_hover_no_effect init0 (by decide) AnimEv.hover2 (by decide)⟩

/-- C9: before the timer callback has run, no mouseover listener exists, so
a hover event on any graphic changes no state field and no class list — the
whole cycler state is untouched. -/
theorem no_listener_before_timer (s : AnimSys) (hf : s.fired = false)
    (e : AnimEv) (he : e ≠ AnimEv.timer) :
    animStep s e = s := by
  cases e
  · exact absurd rfl he
  · simp only [animStep, hf, Bool.false_eq_true, if_false]
  · simp only [animStep, hf, Bool.false_eq_true, if_false]
  · simp only [animStep, hf, Bool.false_eq_true, if_false]

/-- Witness for C9 at a concrete input: a premature hover on graphic 3. -/
theorem no_listener_before_timer_witness :
    init0.fired = false ∧ AnimEv.hover3 ≠ AnimEv.timer ∧
      animStep init0 AnimEv.hover3 = init0 :=
  ⟨by decide, by decide,
    no_listener_before_timer init0 (by decide) AnimEv.hover3 (by decide)⟩

/-- After one hover-handler invocation, graphic 1's element does not carry
`graphic1Load`, whatever graphic was hovered. -/
theorem load_removed_by_hover (s : AnimSys) (hf : s.fired = true)
    (e : AnimEv) (he : e ≠ AnimEv.timer) :
    "graphic1Load" ∉ (animStep s e).g1.classes := by
  have hbase : "graphic1Load" ∉ clRemove "graphic1Load" s.g1.classes :=
    fun hm => (mem_clRemove_iff.mp hm).2 rfl
  cases e
  · exact absurd rfl he
  · simp only [animStep, hf, if_true]
    show "graphic1Load" ∉
      (activate ⟨clRemove "graphic1Load" s.g1.classes, s.g1.state⟩).classes
    unfold activate
    rcases s.g1.state
    · exact hbase
    · intro hm
      rcases mem_clAdd_iff.mp hm with hin | heq
      · exact hbase hin
      · exact load_ne_active heq
  · simp only [animStep, hf, if_true]
    show "graphic1Load" ∉
      (deactivate ⟨clRemove "graphic1Load" s.g1.classes, s.g1.state⟩).classes
    unfold deactivate
    rcases s.g1.state
    · intro hm
      exact hbase (mem_clRemove_iff.mp hm).1
    · exact hbase
  · simp only [animStep, hf, if_true]
    show "graphic1Load" ∉
      (deactivate ⟨clRemove "graphic1Load" s.g1.classes, s.g1.state⟩).classes
    unfold deactivate
    rcases s.g1.state
    · intro hm
      exact hbase (mem_clRemove_iff.mp hm).1
    · exact hbase

/-- `graphic1Load` is never added back by any later event. -/
theorem load_stays_removed (s : AnimSys)
    (h : "graphic1Load" ∉ s.g1.classes) (e : AnimEv) :
    "graphic1Load" ∉ (animStep s e).g1.classes := by
  have hbase : "graphic1Load" ∉ clRemove "graphic1Load" s.g1.classes :=
    fun hm => (mem_clRemove_iff.mp hm).2 rfl
  cases e
  · rcases hf : s.fired
    · simp only [animStep, hf, Bool.false_eq_true, if_false]
      exact h
    · simp only [animStep, hf, if_true]
      exact h
  · rcases hf : s.fired
    · simp only [animStep, hf, Bool.false_eq_true, if_false]
      exact h
    · simp only [animStep, hf, if_true]
      show "graphic1Load" ∉
        (activate ⟨clRemove "graphic1Load" s.g1.classes, s.g1.state⟩).classes
      unfold activate
      rcases s.g1.state
      · exact hbase
      · intro hm
        rcases mem_clAdd_iff.mp hm with hin | heq
        · exact hbase hin
        · exact load_ne_active heq
  · rcases hf : s.fired
    · simp only [animStep, hf, Bool.false_eq_true, if_false]
      exact h
    · simp only [animStep, hf, if_true]
      show "graphic1Load" ∉
        (deactivate ⟨clRemove "graphic1Load" s.g1.classes, s.g1.state⟩).classes
      unfold deactivate
      rcases s.g1.state
      · intro hm
        exact hbase (mem_clRemove_iff.mp hm).1
      · exact hbase
  · rcases hf : s.fired
    · simp only [animStep, hf, Bool.false_eq_true, if_false]
      exact h
    · simp only [animStep, hf, if_true]
      show "graphic1Load" ∉
        (deactivate ⟨clRemove "graphic1Load" s.g1.classes, s.g1.state⟩).classes
      unfold deactivate
      rcases s.g1.state
      · intro hm
        exact hbase (mem_clRemove_iff.mp hm).1
      · exact hbase

/-- C10: every hover-handler invocation removes `graphic1Load` from
graphic 1's element, regardless of which graphic was hovered, and after any
first hover graphic 1 never carries `graphic1Load` again, whatever events
follow. -/
theorem load_removed_forever (s : AnimSys) (hf : s.fired = true)
    (e : AnimEv) (he : e ≠ AnimEv.timer) (es : List AnimEv) :
    "graphic1Load" ∉ (animRun (animStep s e) es).g1.classes := by
  have h0 : "graphic1Load" ∉ (animStep s e).g1.classes :=
    load_removed_by_hover s hf e he
  clear hf he
  generalize animStep s e = t at h0
  induction es generalizing t with
  | nil => exact h0
  | cons e' es ih => exact ih _ (load_stays_removed t h0 e')

/-- Witness for C10 at a concrete input: timer, hover on graphic 2, then a
further hover on graphic 1. -/
theorem load_removed_forever_witness :
    (animRun init0 [AnimEv.timer]).fired = true ∧
    AnimEv.hover2 ≠ AnimEv.timer ∧
    "graphic1Load" ∉
      (animRun (animStep (animRun init0 [AnimEv.timer]) AnimEv.hover2)
        [AnimEv.hover1]).g1.classes :=
  ⟨by decide, by decide,
    load_removed_forever (animRun init0 [AnimEv.timer]) (by decide)
      AnimEv.hover2 (by decide) [AnimEv.hover1]⟩

/-! ## Mobile menu toggler (`toggleMenu` in `src/app/js/animate-elements.js`) -/

/-- Clicks observable once `toggleMenu` has bound its two handlers: a click
on the open button `.menu-btn` or on the close button
`.mobile-menu__close`. -/
inductive MenuEv where
  | openClick
  | closeClick
deriving DecidableEq

/-- Effect of one click on the `.mobile-menu` element's class attribute:
the open handler runs `classList.add('mobile-menu--open')`, the close
handler runs `classList.remove('mobile-menu--open')`. -/
def menuStep (classes : List String) : MenuEv → List String
  | MenuEv.openClick => clAdd "mobile-menu--open" classes
  | MenuEv.closeClick => clRemove "mobile-menu--open" classes

/-- C5: from any prior class attribute, a click on the open button leaves
the menu element carrying `mobile-menu--open` and a click on the close
button leaves it not carrying it; repeating either click is a no-op (both
handlers are idempotent). -/
theorem toggleMenu_open_close (classes : List String) :
    "mobile-menu--open" ∈ menuStep classes MenuEv.openClick ∧
    "mobile-menu--open" ∉ menuStep classes MenuEv.closeClick ∧
    menuStep (menuStep classes MenuEv.openClick) MenuEv.openClick
      = menuStep classes MenuEv.openClick ∧
    menuStep (menuStep classes MenuEv.closeClick) MenuEv.closeClick
      = menuStep classes MenuEv.closeClick := by
  refine ⟨mem_clAdd_iff.mpr (Or.inr rfl),
    fun hm => (mem_clRemove_iff.mp hm).2 rfl, ?_, ?_⟩
  · show clAdd "mobile-menu--open" (clAdd "mobile-menu--open" classes)
      = clAdd "mobile-menu--open" classes
    unfold clAdd
    by_cases h : "mobile-menu--open" ∈ classes
    · rw [if_pos h, if_pos h]
    · rw [if_neg h, if_pos (by simp)]
  · show clRemove "mobile-menu--open" (clRemove "mobile-menu--open" classes)
      = clRemove "mobile-menu--open" classes
    unfold clRemove
    rw [List.filter_filter]
    simp

/-! ## Build pipeline (the Brocfile) -/

/-- A broccoli tree expression, one constructor per plugin the Brocfile
composes: a plain source directory, `broccoli-inject-livereload`,
`broccoli-sass-source-maps` (include paths, entry, output), `broccoli-csso`,
`broccoli-autoprefixer`, `broccoli-babel-transpiler`, `broccoli-rollup`
(input tree, entry, dest), `broccoli-stew`'s `rm` and `mv`, and
`broccoli-merge-trees`. -/
inductive BTree where
  | src : String → BTree
  | liveReload : BTree → BTree
  | sass : List String → String → String → BTree
  | csso : BTree → BTree
  | autoprefixer : BTree → BTree
  | babel : BTree → BTree
  | rollup : BTree → String → String → BTree
  | rmGlob : BTree → String → BTree
  | mvTo : BTree → String → BTree
  | merge : List BTree → BTree

/-- `pubFiles`: built as `LiveReload('public')` and then replaced by the
plain `'public'` directory when `EMBER_ENV === 'production'`. The
environment variable is `none` when unset. -/
def pubFiles (env : Option String) : BTree :=
  if env = some "production" then BTree.src "public"
  else BTree.liveReload (BTree.src "public")

/-- The `stylePaths` include directories. -/
def stylePaths : List String :=
  ["app/styles", "node_modules/font-awesome/scss",
   "node_modules/normalize-css", "node_modules/yoga-sass/assets"]

/-- `appNoSass = rm('app', '**/*.scss')`. -/
def appNoSass : BTree := BTree.rmGlob (BTree.src "app") "**/*.scss"

/-- `babelScript = new Babel(appNoSass)`. -/
def babelScript : BTree := BTree.babel appNoSass

/-- `appScript`: rollup of the transpiled app, entry `./index.js`, dest
`app.js`. -/
def appScript : BTree := BTree.rollup babelScript "./index.js" "app.js"

/-- `compiledSass`: `new Sass(stylePaths, 'app.scss', 'app.css', {})`. -/
def compiledSass : BTree := BTree.sass stylePaths "app.scss" "app.css"

/-- `styles = new Autoprefixer(new CssOptimizer(compiledSass))`. -/
def styles : BTree := BTree.autoprefixer (BTree.csso compiledSass)

/-- `testTree`: the transpiled app moved under `app` merged with the
transpiled `tests` directory moved under `tests`. -/
def testTree : BTree :=
  BTree.merge [BTree.mvTo babelScript "app",
    BTree.mvTo (BTree.babel (BTree.src "tests")) "tests"]

/-- `testJs`: rollup of `testTree`, entry `./tests/index-test.js`, dest
`tests.js`. -/
def testJs : BTree := BTree.rollup testTree "./tests/index-test.js" "tests.js"

/-- `module.exports`: in test mode (`EMBER_ENV === 'test'`) the merge of
public files, styles, app bundle and test bundle; otherwise the merge of
the first three. -/
def brocfileExport (env : Option String) : BTree :=
  if env = some "test" then
    BTree.merge [pubFiles env, styles, appScript, testJs]
  else
    BTree.merge [pubFiles env, styles, appScript]

/-- The list of trees a top-level merge combines (a non-merge tree stands
alone). -/
def mergedParts : BTree → List BTree
  | BTree.merge ts => ts
  | t => [t]

/-- The output file a (possibly wrapped) single-output build stage writes:
a rollup's `targets.dest`, or the stylesheet name threaded through the
style post-processors. -/
def outName : BTree → Option String
  | BTree.rollup _ _ dest => some dest
  | BTree.autoprefixer (BTree.csso (BTree.sass _ _ out)) => some out
  | _ => none

/-- C6: the exported tree is the merge of the public-files tree, the
compiled styles (whose output file is `app.css`) and the bundled script
(dest `app.js`), and it additionally contains the test bundle (dest
`tests.js`) exactly when `EMBER_ENV = 'test'`. -/
theorem brocfile_output (env : Option String) :
    mergedParts (brocfileExport env)
      = [pubFiles env, styles, appScript]
        ++ (if env = some "test" then [testJs] else []) ∧
    (testJs ∈ mergedParts (brocfileExport env) ↔ env = some "test") ∧
    outName styles = some "app.css" ∧
    outName appScript = some "app.js" ∧
    outName testJs = some "tests.js" := by
  by_cases ht : env = some "test"
  · subst ht
    refine ⟨by simp [brocfileExport, mergedParts], ?_, rfl, rfl, rfl⟩
    simp [brocfileExport, mergedParts]
  · refine ⟨by simp [brocfileExport, ht, mergedParts], ?_, rfl, rfl, rfl⟩
    simp only [brocfileExport, ht, if_false, mergedParts]
    constructor
    · intro hm
      exfalso
      rcases List.mem_cons.mp hm with h1 | hm
      · by_cases hp : env = some "production" <;>
          simp [pubFiles, hp, testJs] at h1
      · rcases List.mem_cons.mp hm with h2 | hm
        · simp [testJs, styles] at h2
        · rcases List.mem_cons.mp hm with h3 | hm
          · simp [testJs, appScript] at h3
          · exact absurd hm (List.not_mem_nil _)
    · intro hc
      exact hc.elim

/-- C7: the exported tree's public component is the live-reload wrapped
public directory exactly when `EMBER_ENV` is not `'production'`, and the
plain public directory exactly in production mode. -/
theorem brocfile_livereload (env : Option String) :
    (pubFiles env = BTree.liveReload (BTree.src "public")
      ↔ env ≠ some "production") ∧
    (pubFiles env = BTree.src "public" ↔ env = some "production") ∧
    (mergedParts (brocfileExport env)).head? = some (pubFiles env) := by
  refine ⟨?_, ?_, ?_⟩
  · by_cases hp : env = some "production" <;> simp [pubFiles, hp]
  · by_cases hp : env = some "production" <;> simp [pubFiles, hp]
  · by_cases ht : env = some "test" <;> simp [brocfileExport, ht, mergedParts]

/-! ## Documentation renderer (docs server hook) -/

/-- Observable effects of the docs server hook's `fs.readFile` callback:
log lines written with `console.log`, responses served over an endpoint,
and a value returned to a caller. -/
structure HookEffects where
  logged : List String
  served : List String
  returned : Option String
deriving DecidableEq

/-- The `fs.readFile` callback of the docs server hook, parameterised by
the external `showdown` converter's `makeHtml`. A read error is rethrown
(`if (err) throw err`), terminating the enclosing initialization with that
error; on success the converted HTML is passed to `console.log` only —
nothing is served and nothing is returned. -/
def docsServerHook (makeHtml : String → String)
    (readResult : Except String String) : Except String HookEffects :=
  match readResult with
  | Except.error e => Except.error e
  | Except.ok data =>
      Except.ok { logged := [makeHtml data], served := [], returned := none }

/-- C8: a file-read error propagates as a raised error out of the hook,
and on a successful read the hook's only effect is one log line holding the
converted HTML — nothing is served and nothing is returned to a caller. -/
theorem docsServerHook_spec (makeHtml : String → String)
    (readResult : Except String String) :
    (∀ e, readResult = Except.error e →
      docsServerHook makeHtml readResult = Except.error e) ∧
    (∀ data, readResult = Except.ok data →
      docsServerHook makeHtml readResult =
        Except.ok ⟨[makeHtml data], [], none⟩) := by
  constructor
  · intro e he
    rw [he]
    rfl
  · intro data hd
    rw [hd]
    rfl

/-- Witness for C8 at concrete inputs: an identity converter, one failing
read and one successful read. -/
theorem docsServerHook_spec_witness :
    ((Except.error "ENOENT" : Except String String) = Except.error "ENOENT" ∧
      docsServerHook (fun d => d) (Except.error "ENOENT")
        = Except.error "ENOENT") ∧
    ((Except.ok "# hi" : Except String String) = Except.ok "# hi" ∧
      docsServerHook (fun d => d) (Except.ok "# hi")
        = Except.ok { logged := ["# hi"], served := [], returned := none }) :=
  ⟨⟨rfl, (docsServerHook_spec (fun d => d) (Except.error "ENOENT")).1
      "ENOENT" rfl⟩,
   ⟨rfl, (docsServerHook_spec (fun d => d) (Except.ok "# hi")).2
      "# hi" rfl⟩⟩

end Website
